import Mathlib

/-!
Shallow embedding of `src/lambdas/LambdaGlueJobSuccess/index.py`.

The handler reacts to a Glue job completion event: it classifies the job
name by content-type markers, starts the matching crawler, waits for the
crawler with a 90 second bound at a 5 second interval, looks up one table
by prefix in the Glue catalog, submits an Athena validation query, waits
(unbounded, 5 second interval) for a terminal query state, and returns a
boolean success signal.

External services are modelled by an oracle environment `Env`: the state
returned by the i-th crawler poll, the table list returned by the catalog,
and the status returned by the i-th query poll are fields of `Env`.  Every
external call the handler performs is recorded in a `Call` trace.  The
unbounded Athena wait is fuel-parameterised: with insufficient fuel the
handler result is `none` (the loop has not exited), and the trace records
the calls made so far.
-/

/-- One external service call made by the handler, in program order. -/
inductive Call where
  | startCrawler (name : String)
  | getCrawler (name : String)
  | sleep (seconds : Nat)
  | getTables (database : String) (expression : String)
  | startQueryExecution (query : String) (database : String) (outputLocation : String)
  | getQueryExecution (queryId : String)
deriving DecidableEq, Repr

/-- A Glue catalog table; the handler only reads its `Name` field. -/
structure Table where
  name : String
deriving DecidableEq, Repr

/-- The status block of an Athena query execution: the `State` field and
the optional `StateChangeReason` field. -/
structure QueryStatusInfo where
  state : String
  stateChangeReason : Option String
deriving DecidableEq, Repr

/-- The `detail` object of the triggering event; `jobName` may be absent. -/
structure Detail where
  jobName : Option String
deriving DecidableEq, Repr

/-- The triggering event; the `detail` field may be absent. -/
structure Event where
  detail : Option Detail
deriving DecidableEq, Repr

/-- Oracle environment: configuration values and the responses of the
external services, indexed by poll number where the handler polls. -/
structure Env where
  txtCrawler : String
  csvCrawler : String
  jsonCrawler : String
  glueDatabase : String
  athenaOutputBucket : String
  queryExecutionId : String
  crawlerState : Nat → String
  tableList : List Table
  queryStatus : Nat → QueryStatusInfo

/-- Failure reasons of the workflow, one per `return False` site of the
handler (the source logs a distinct message at each site). -/
inductive Reason where
  | unclassifiedSignal
  | noMatchingEntry
  | queryNotSucceeded (reason : String)
deriving DecidableEq, Repr

/-- The overall result returned by the handler: `success` is the source
returning `True`, `failure r` is `return False` at the site tagged `r`. -/
inductive HResult where
  | success
  | failure (reason : Reason)
deriving DecidableEq, Repr

/-- Does `sub` occur as a contiguous sublist of the second argument. -/
def containsSub (sub : List Char) : List Char → Bool
  | [] => sub.isEmpty
  | c :: rest => sub.isPrefixOf (c :: rest) || containsSub sub rest

/-- Python substring membership `sub in s`, matched case-sensitively. -/
def pyIn (sub s : String) : Bool :=
  containsSub sub.toList s.toList

/-- Lines 18-19: the detail object defaults to empty and the job name
defaults to "unknown" when either field is absent (dict get defaults). -/
def extractJobName (event : Event) : String :=
  ((event.detail.getD ⟨none⟩).jobName).getD "unknown"

/-- Lines 23-34: pick the crawler name and table prefix from the job name,
first match wins in the order txt, csv, json; `none` is the
`return False` branch with the "No crawler found" warning. -/
def classify (env : Env) (jobName : String) : Option (String × String) :=
  if pyIn "txt" jobName then some (env.txtCrawler, "txt_")
  else if pyIn "csv" jobName then some (env.csvCrawler, "csv_")
  else if pyIn "json" jobName then some (env.jsonCrawler, "json_")
  else none

/-- Line 47: membership of the crawler state in READY, STOPPING. -/
def isCrawlerTerminal (s : String) : Bool :=
  s == "READY" || s == "STOPPING"

/-- Line 93: `state in ("SUCCEEDED", "FAILED", "CANCELLED")`. -/
def isQueryTerminal (s : String) : Bool :=
  s == "SUCCEEDED" || s == "FAILED" || s == "CANCELLED"

/-- Lines 43-56: the crawler wait loop.  `i` is the index of the next
poll, `waited` the accumulated wait; each non-terminal poll sleeps 5
seconds, adds 5 to `waited`, and breaks once `waited >= 90`.  Returns
the last observed state, whether the loop exited by the timeout branch,
and the trace of calls made by the loop. -/
def crawlerWaitAux (name : String) (sample : Nat → String) (i waited : Nat) :
    String × Bool × List Call :=
  let status := sample i
  if isCrawlerTerminal status then
    (status, false, [Call.getCrawler name])
  else if 90 ≤ waited + 5 then
    (status, true, [Call.getCrawler name, Call.sleep 5])
  else
    let r := crawlerWaitAux name sample (i + 1) (waited + 5)
    (r.1, r.2.1, Call.getCrawler name :: Call.sleep 5 :: r.2.2)
termination_by 90 - waited
decreasing_by
  simp_wf
  omega

/-- The crawler wait as entered from line 41 with `waited = 0`. -/
def crawlerWait (name : String) (sample : Nat → String) : String × Bool × List Call :=
  crawlerWaitAux name sample 0 0

/-- Lines 88-96: the Athena wait loop, fuel-parameterised.  Returns
`(some finalStatus, trace)` when a terminal state is observed within
`fuel` polls, `(none, trace)` when the loop is still running after
`fuel` polls. -/
def queryWaitAux (queryId : String) (sample : Nat → QueryStatusInfo) :
    Nat → Nat → Option QueryStatusInfo × List Call
  | _, 0 => (none, [])
  | i, fuel + 1 =>
    let q := sample i
    if isQueryTerminal q.state then
      (some q, [Call.getQueryExecution queryId])
    else
      let r := queryWaitAux queryId sample (i + 1) fuel
      (r.1, Call.getQueryExecution queryId :: Call.sleep 5 :: r.2)

/-- Line 69: `table_name = tables[0]["Name"]` — the first entry of the
returned list, with no local sort or tie-break. -/
def selectTable : List Table → Option Table
  | [] => none
  | t :: _ => some t

/-- Lines 98-104: the final result from the terminal query status; the
`StateChangeReason` field is read (with default "Unknown") only when the
state is not SUCCEEDED. -/
def outcomeOfQuery (q : QueryStatusInfo) : HResult :=
  if q.state ≠ "SUCCEEDED" then
    HResult.failure (Reason.queryNotSucceeded (q.stateChangeReason.getD "Unknown"))
  else
    HResult.success

/-- The whole handler (lines 15-104).  The first component is the result:
`some HResult.success` for `return True`, `some (HResult.failure r)` for
`return False` at the site tagged `r`, and `none` when the unbounded
Athena wait has not exited within `fuel` polls.  The second component is
the trace of external calls made, in order. -/
def lambda_handler (env : Env) (event : Event) (fuel : Nat) :
    Option HResult × List Call :=
  let jobName := extractJobName event
  match classify env jobName with
  | none => (some (HResult.failure Reason.unclassifiedSignal), [])
  | some (crawlerName, tablePfx) =>
    let cw := crawlerWait crawlerName env.crawlerState
    let trace2 := Call.startCrawler crawlerName :: cw.2.2 ++
      [Call.getTables env.glueDatabase (tablePfx ++ "*")]
    match selectTable env.tableList with
    | none => (some (HResult.failure Reason.noMatchingEntry), trace2)
    | some t =>
      let query := "SELECT * FROM " ++ t.name
      let outputLocation := "s3://" ++ env.athenaOutputBucket ++ "/results/"
      let trace3 := trace2 ++ [Call.startQueryExecution query env.glueDatabase outputLocation]
      let qw := queryWaitAux env.queryExecutionId env.queryStatus 0 fuel
      match qw.1 with
      | none => (none, trace3 ++ qw.2)
      | some q => (some (outcomeOfQuery q), trace3 ++ qw.2)

/-- Number of calls in a trace satisfying `p`. -/
def countCall (p : Call → Bool) (tr : List Call) : Nat :=
  (tr.filter p).length

/-- Is this call a crawler start. -/
def isStartCrawler : Call → Bool
  | Call.startCrawler _ => true
  | _ => false

/-- Is this call a crawler poll. -/
def isGetCrawler : Call → Bool
  | Call.getCrawler _ => true
  | _ => false

/-- Is this call a sleep. -/
def isSleep : Call → Bool
  | Call.sleep _ => true
  | _ => false

/-- Is this call a catalog lookup. -/
def isGetTables : Call → Bool
  | Call.getTables _ _ => true
  | _ => false

/-- Is this call a query submission. -/
def isStartQuery : Call → Bool
  | Call.startQueryExecution _ _ _ => true
  | _ => false

/-- Is this call a query poll. -/
def isGetQuery : Call → Bool
  | Call.getQueryExecution _ => true
  | _ => false

/-- A concrete environment: crawler ready at once, one csv table, query
fails with reason Syntax error. -/
def envA : Env :=
  ⟨"txt-crawler", "csv-crawler", "json-crawler", "db", "bkt", "qid-1",
    fun _ => "READY", [⟨"csv_raw"⟩], fun _ => ⟨"FAILED", some "Syntax error"⟩⟩

/-- A concrete environment whose catalog lookup returns no tables. -/
def envB : Env :=
  ⟨"txt-crawler", "csv-crawler", "json-crawler", "db", "bkt", "qid-1",
    fun _ => "READY", [], fun _ => ⟨"RUNNING", none⟩⟩

/-- A concrete environment whose crawler never leaves RUNNING and whose
query succeeds at once. -/
def envC : Env :=
  ⟨"txt-crawler", "csv-crawler", "json-crawler", "db", "bkt", "qid-1",
    fun _ => "RUNNING", [⟨"csv_raw"⟩], fun _ => ⟨"SUCCEEDED", none⟩⟩

/-- A concrete event naming a csv job. -/
def evA : Event := ⟨some ⟨some "ingest-csv-001"⟩⟩

/-! ## Helper lemmas -/

theorem countCall_append (p : Call → Bool) (a b : List Call) :
    countCall p (a ++ b) = countCall p a + countCall p b := by
  simp [countCall, List.filter_append]

theorem countCall_nil (p : Call → Bool) : countCall p [] = 0 := rfl

theorem countCall_cons (p : Call → Bool) (c : Call) (tr : List Call) :
    countCall p (c :: tr) = (if p c then 1 else 0) + countCall p tr := by
  simp only [countCall, List.filter_cons]
  by_cases h : p c <;> simp [h, Nat.add_comm]

theorem countCall_zero_of (p : Call → Bool) (tr : List Call)
    (h : ∀ c ∈ tr, p c = false) : countCall p tr = 0 := by
  simp only [countCall, List.length_eq_zero, List.filter_eq_nil_iff]
  intro a ha
  simp [h a ha]

theorem crawlerWaitAux_trace (name : String) (sample : Nat → String) :
    ∀ k w i, 90 - w ≤ k →
      ∀ c ∈ (crawlerWaitAux name sample i w).2.2,
        c = Call.getCrawler name ∨ c = Call.sleep 5 := by
  intro k
  induction k with
  | zero =>
    intro w i hw c hc
    rw [crawlerWaitAux] at hc
    by_cases h1 : isCrawlerTerminal (sample i)
    · simp [h1] at hc
      simp [hc]
    · have h2 : 90 ≤ w + 5 := by omega
      simp [h1, h2] at hc
      rcases hc with hc | hc <;> simp [hc]
  | succ k ih =>
    intro w i hw c hc
    rw [crawlerWaitAux] at hc
    by_cases h1 : isCrawlerTerminal (sample i)
    · simp [h1] at hc
      simp [hc]
    · by_cases h2 : 90 ≤ w + 5
      · simp [h1, h2] at hc
        rcases hc with hc | hc <;> simp [hc]
      · simp [h1, h2] at hc
        rcases hc with hc | hc | hc
        · simp [hc]
        · simp [hc]
        · exact ih (w + 5) (i + 1) (by omega) c hc

theorem crawlerWaitAux_timeout (name : String) (sample : Nat → String)
    (h : ∀ n, isCrawlerTerminal (sample n) = false) :
    ∀ k w i, 90 - w ≤ k → w < 90 →
      countCall isGetCrawler (crawlerWaitAux name sample i w).2.2 = (90 - w + 4) / 5 ∧
      (crawlerWaitAux name sample i w).2.1 = true := by
  intro k
  induction k with
  | zero => intro w i hw hlt; omega
  | succ k ih =>
    intro w i hw hlt
    rw [crawlerWaitAux]
    by_cases h2 : 90 ≤ w + 5
    · simp only [h i, if_false, Bool.false_eq_true, if_neg, h2, if_true, if_pos]
      constructor
      · simp [countCall, isGetCrawler, isSleep, List.filter]
        omega
      · trivial
    · have hrec := ih (w + 5) (i + 1) (by omega) (by omega)
      simp only [h i, Bool.false_eq_true, if_false, h2, if_neg, if_false]
      constructor
      · simp only [countCall, List.filter] at hrec ⊢
        simp [isGetCrawler, isSleep, hrec.1]
        omega
      · exact hrec.2

theorem crawlerWait_first_terminal (name : String) (sample : Nat → String)
    (h : isCrawlerTerminal (sample 0) = true) :
    crawlerWait name sample = (sample 0, false, [Call.getCrawler name]) := by
  rw [crawlerWait, crawlerWaitAux]
  simp [h]

theorem queryWaitAux_trace (queryId : String) (sample : Nat → QueryStatusInfo) :
    ∀ fuel i, ∀ c ∈ (queryWaitAux queryId sample i fuel).2,
      c = Call.getQueryExecution queryId ∨ c = Call.sleep 5 := by
  intro fuel
  induction fuel with
  | zero => intro i c hc; simp [queryWaitAux] at hc
  | succ fuel ih =>
    intro i c hc
    rw [queryWaitAux] at hc
    by_cases h1 : isQueryTerminal (sample i).state
    · simp [h1] at hc
      simp [hc]
    · simp [h1] at hc
      rcases hc with hc | hc | hc
      · simp [hc]
      · simp [hc]
      · exact ih (i + 1) c hc

theorem queryWaitAux_never_terminal (queryId : String) (sample : Nat → QueryStatusInfo)
    (h : ∀ n, isQueryTerminal (sample n).state = false) :
    ∀ fuel i, (queryWaitAux queryId sample i fuel).1 = none := by
  intro fuel
  induction fuel with
  | zero => intro i; rfl
  | succ fuel ih =>
    intro i
    rw [queryWaitAux]
    simp [h i, ih (i + 1)]

theorem queryWaitAux_some_terminal (queryId : String) (sample : Nat → QueryStatusInfo) :
    ∀ fuel i q, (queryWaitAux queryId sample i fuel).1 = some q →
      isQueryTerminal q.state = true := by
  intro fuel
  induction fuel with
  | zero => intro i q hq; simp [queryWaitAux] at hq
  | succ fuel ih =>
    intro i q hq
    rw [queryWaitAux] at hq
    by_cases h1 : isQueryTerminal (sample i).state
    · simp [h1] at hq
      rw [← hq]
      exact h1
    · simp [h1] at hq
      exact ih (i + 1) q hq

theorem lambda_handler_unclassified (env : Env) (event : Event) (fuel : Nat)
    (hc : classify env (extractJobName event) = none) :
    lambda_handler env event fuel = (some (HResult.failure Reason.unclassifiedSignal), []) := by
  rw [lambda_handler, hc]

theorem lambda_handler_noTables (env : Env) (event : Event) (fuel : Nat)
    (cn pfx : String)
    (hc : classify env (extractJobName event) = some (cn, pfx))
    (ht : env.tableList = []) :
    lambda_handler env event fuel =
      (some (HResult.failure Reason.noMatchingEntry),
        Call.startCrawler cn :: (crawlerWait cn env.crawlerState).2.2 ++
          [Call.getTables env.glueDatabase (pfx ++ "*")]) := by
  rw [lambda_handler, hc]
  simp [ht, selectTable]

theorem lambda_handler_tables (env : Env) (event : Event) (fuel : Nat)
    (cn pfx : String) (t : Table) (rest : List Table)
    (hc : classify env (extractJobName event) = some (cn, pfx))
    (ht : env.tableList = t :: rest) :
    lambda_handler env event fuel =
      ((queryWaitAux env.queryExecutionId env.queryStatus 0 fuel).1.map outcomeOfQuery,
        (Call.startCrawler cn :: (crawlerWait cn env.crawlerState).2.2 ++
          [Call.getTables env.glueDatabase (pfx ++ "*")]) ++
        [Call.startQueryExecution ("SELECT * FROM " ++ t.name) env.glueDatabase
          ("s3://" ++ env.athenaOutputBucket ++ "/results/")] ++
        (queryWaitAux env.queryExecutionId env.queryStatus 0 fuel).2) := by
  rw [lambda_handler, hc]
  simp only [ht, selectTable]
  cases hq : (queryWaitAux env.queryExecutionId env.queryStatus 0 fuel).1 <;>
    simp [hq, List.append_assoc]

theorem firstAtOnly (p : Call → Bool) :
    ∀ (a : List Call) (x : Call) (b : List Call), p x = true →
      countCall p a = 0 → countCall p b = 0 →
      ∀ pre y post, a ++ x :: b = pre ++ y :: post → p y = true →
        pre = a ∧ y = x ∧ post = b := by
  intro a
  induction a with
  | nil =>
    intro x b hx ha hb pre y post heq hy
    cases pre with
    | nil =>
      simp at heq
      exact ⟨rfl, heq.1.symm, heq.2.symm⟩
    | cons z pre =>
      simp at heq
      exfalso
      have hcb : countCall p b = countCall p (pre ++ y :: post) := by rw [heq.2]
      rw [countCall_append, countCall_cons, hy] at hcb
      simp at hcb
      omega
  | cons z a ih =>
    intro x b hx ha hb pre y post heq hy
    rw [countCall_cons] at ha
    have hz : p z = false := by
      by_cases h : p z <;> simp [h] at ha ⊢
    rw [hz] at ha
    simp at ha
    cases pre with
    | nil =>
      simp at heq
      obtain ⟨h1, _⟩ := heq
      subst h1
      rw [hz] at hy
      simp at hy
    | cons w pre =>
      simp at heq
      have hrec := ih x b hx ha hb pre y post heq.2 hy
      exact ⟨by simp [heq.1.symm, hrec.1], hrec.2.1, hrec.2.2⟩

/-- C1: whenever the handler reaches the query stage and the query wait
observes a terminal status, the handler returns overall success exactly
when that terminal state is SUCCEEDED; for any other terminal state it
returns failure, with the reason taken from the status metadata of the
query run (defaulting to "Unknown"), which is only read in the
non-SUCCEEDED branch. -/
theorem query_outcome_success_iff_succeeded (env : Env) (event : Event) (fuel : Nat)
    (cn pfx : String) (t : Table) (rest : List Table) (q : QueryStatusInfo)
    (hc : classify env (extractJobName event) = some (cn, pfx))
    (ht : env.tableList = t :: rest)
    (hq : (queryWaitAux env.queryExecutionId env.queryStatus 0 fuel).1 = some q) :
    isQueryTerminal q.state = true ∧
    ((lambda_handler env event fuel).1 = some HResult.success ↔ q.state = "SUCCEEDED") ∧
    (q.state ≠ "SUCCEEDED" →
      (lambda_handler env event fuel).1 =
        some (HResult.failure (Reason.queryNotSucceeded (q.stateChangeReason.getD "Unknown")))) := by
  have hterm := queryWaitAux_some_terminal env.queryExecutionId env.queryStatus fuel 0 q hq
  have hsh := lambda_handler_tables env event fuel cn pfx t rest hc ht
  rw [hsh]
  simp only [hq, Option.map_some]
  refine ⟨hterm, ?_, ?_⟩
  · unfold outcomeOfQuery
    by_cases hs : q.state = "SUCCEEDED" <;> simp [hs]
  · intro hs
    unfold outcomeOfQuery
    simp [hs]

/-- C1 witness: in a concrete environment where the query terminates
FAILED with reason "Syntax error", the handler fails with that reason. -/
theorem query_outcome_success_iff_succeeded_witness :
    (lambda_handler envA evA 1).1 =
      some (HResult.failure (Reason.queryNotSucceeded "Syntax error")) := by
  have h := query_outcome_success_iff_succeeded envA evA 1 "csv-crawler" "csv_"
    ⟨"csv_raw"⟩ [] ⟨"FAILED", some "Syntax error"⟩ (by decide) (by decide) (by decide)
  exact h.2.2 (by decide)

/-- C2: for every job name containing none of the markers "txt", "csv",
"json", the handler returns failure with reason UnclassifiedSignal and an
empty call trace: no crawler start, no catalog lookup, no query
submission. -/
theorem unclassified_fails_with_no_calls (env : Env) (event : Event) (fuel : Nat)
    (h : ∀ m ∈ ["txt", "csv", "json"], pyIn m (extractJobName event) = false) :
    lambda_handler env event fuel = (some (HResult.failure Reason.unclassifiedSignal), []) := by
  apply lambda_handler_unclassified
  have h1 := h "txt" (by simp)
  have h2 := h "csv" (by simp)
  have h3 := h "json" (by simp)
  simp [classify, h1, h2, h3]

/-- C2 witness: the job name "cleanup-job" matches no marker; the handler
fails with UnclassifiedSignal and makes no external calls. -/
theorem unclassified_fails_with_no_calls_witness :
    lambda_handler envA ⟨some ⟨some "cleanup-job"⟩⟩ 0 =
      (some (HResult.failure Reason.unclassifiedSignal), []) :=
  unclassified_fails_with_no_calls envA ⟨some ⟨some "cleanup-job"⟩⟩ 0 (by decide)

/-- C3: if the crawler never reports a terminal state, the 90 second wait
with 5 second interval returns after exactly 18 polls, where 18 is the
ceiling of 90 / 5, with the timed-out outcome rather than a failure. -/
theorem crawler_wait_timeout_sample_count (name : String) (sample : Nat → String)
    (h : ∀ n, isCrawlerTerminal (sample n) = false) :
    countCall isGetCrawler (crawlerWait name sample).2.2 = 18 ∧
    18 = (90 + 5 - 1) / 5 ∧
    (crawlerWait name sample).2.1 = true := by
  have := crawlerWaitAux_timeout name sample h 90 0 0 (by omega) (by omega)
  rw [crawlerWait]
  exact ⟨this.1, by norm_num, this.2⟩

/-- C3 witness: a crawler stuck in RUNNING is polled exactly 18 times and
the wait reports a timeout. -/
theorem crawler_wait_timeout_sample_count_witness :
    countCall isGetCrawler (crawlerWait "c" (fun _ => "RUNNING")).2.2 = 18 ∧
    18 = (90 + 5 - 1) / 5 ∧
    (crawlerWait "c" (fun _ => "RUNNING")).2.1 = true :=
  crawler_wait_timeout_sample_count "c" (fun _ => "RUNNING") (fun _ => by simp [isCrawlerTerminal])

/-- C4: classification matches the job name against "txt", "csv", "json"
as case-sensitive substrings, first match wins in that order, and yields
the matched marker plus an underscore as the catalog prefix; in
particular a job name containing "csv" but not "txt" selects the csv
crawler and the "csv_" prefix regardless of other substrings. -/
theorem classification_first_match_wins (env : Env) (jobName : String) :
    (pyIn "txt" jobName = true → classify env jobName = some (env.txtCrawler, "txt" ++ "_")) ∧
    (pyIn "txt" jobName = false → pyIn "csv" jobName = true →
      classify env jobName = some (env.csvCrawler, "csv" ++ "_")) ∧
    (pyIn "txt" jobName = false → pyIn "csv" jobName = false → pyIn "json" jobName = true →
      classify env jobName = some (env.jsonCrawler, "json" ++ "_")) ∧
    (pyIn "txt" jobName = false → pyIn "csv" jobName = false → pyIn "json" jobName = false →
      classify env jobName = none) := by
  refine ⟨fun h1 => ?_, fun h1 h2 => ?_, fun h1 h2 h3 => ?_, fun h1 h2 h3 => ?_⟩ <;>
    simp_all [classify]

/-- C4 witness: "job-CSV-csv-json-01" contains "csv" (case-sensitively)
and "json" but not "txt", so the csv crawler and "csv_" are selected. -/
theorem classification_first_match_wins_witness :
    classify envA "job-CSV-csv-json-01" = some (envA.csvCrawler, "csv" ++ "_") :=
  (classification_first_match_wins envA "job-CSV-csv-json-01").2.1 (by decide) (by decide)

/-- C5: when the catalog lookup returns an empty sequence the handler
fails with reason NoMatchingEntry and never submits the validation
query; when the sequence is non-empty the first entry in the returned
ordering is selected, with no local sort or tie-break, and the query is
built from exactly that entry. -/
theorem empty_catalog_fails_no_query (env : Env) (event : Event) (fuel : Nat)
    (cn pfx : String)
    (hc : classify env (extractJobName event) = some (cn, pfx)) :
    (env.tableList = [] →
      (lambda_handler env event fuel).1 = some (HResult.failure Reason.noMatchingEntry) ∧
      countCall isStartQuery (lambda_handler env event fuel).2 = 0) ∧
    (∀ t rest, env.tableList = t :: rest →
      selectTable env.tableList = some t ∧
      Call.startQueryExecution ("SELECT * FROM " ++ t.name) env.glueDatabase
        ("s3://" ++ env.athenaOutputBucket ++ "/results/") ∈
          (lambda_handler env event fuel).2) := by
  constructor
  · intro ht
    rw [lambda_handler_noTables env event fuel cn pfx hc ht]
    refine ⟨rfl, ?_⟩
    apply countCall_zero_of
    intro c hcmem
    simp at hcmem
    rcases hcmem with hcm | hcm | hcm
    · simp [hcm, isStartQuery]
    · rcases crawlerWaitAux_trace cn env.crawlerState 90 0 0 (by omega) c hcm with h | h <;>
        simp [h, isStartQuery]
    · simp [hcm, isStartQuery]
  · intro t rest ht
    rw [lambda_handler_tables env event fuel cn pfx t rest hc ht]
    exact ⟨by simp [ht, selectTable], by simp⟩

/-- C5 witness: with an empty catalog the handler fails with
NoMatchingEntry and submits no query; with catalog ["csv_raw"] the first
entry is selected and its SELECT query is submitted. -/
theorem empty_catalog_fails_no_query_witness :
    ((lambda_handler envB evA 0).1 = some (HResult.failure Reason.noMatchingEntry) ∧
      countCall isStartQuery (lambda_handler envB evA 0).2 = 0) ∧
    (selectTable envA.tableList = some ⟨"csv_raw"⟩ ∧
      Call.startQueryExecution ("SELECT * FROM " ++ Table.name ⟨"csv_raw"⟩) envA.glueDatabase
        ("s3://" ++ envA.athenaOutputBucket ++ "/results/") ∈ (lambda_handler envA evA 1).2) :=
  ⟨(empty_catalog_fails_no_query envB evA 0 "csv-crawler" "csv_" (by decide)).1 (by decide),
   (empty_catalog_fails_no_query envA evA 1 "csv-crawler" "csv_" (by decide)).2
     ⟨"csv_raw"⟩ [] (by decide)⟩

/-- C6: the refresh-task timeout is soft: for every classified
invocation, whatever states the crawler reports (in particular when it
never reaches a terminal state within the 90 second bound, in which case
the wait reports a timeout), the handler proceeds to the catalog-lookup
stage; the crawler stage never by itself fails the workflow. -/
theorem crawler_timeout_is_soft (env : Env) (event : Event) (fuel : Nat)
    (cn pfx : String)
    (hc : classify env (extractJobName event) = some (cn, pfx)) :
    Call.getTables env.glueDatabase (pfx ++ "*") ∈ (lambda_handler env event fuel).2 ∧
    ((∀ n, isCrawlerTerminal (env.crawlerState n) = false) →
      (crawlerWait cn env.crawlerState).2.1 = true ∧
      Call.getTables env.glueDatabase (pfx ++ "*") ∈ (lambda_handler env event fuel).2) := by
  have hmem : Call.getTables env.glueDatabase (pfx ++ "*") ∈ (lambda_handler env event fuel).2 := by
    cases ht : env.tableList with
    | nil =>
      rw [lambda_handler_noTables env event fuel cn pfx hc ht]
      simp
    | cons t rest =>
      rw [lambda_handler_tables env event fuel cn pfx t rest hc ht]
      simp
  refine ⟨hmem, fun h => ⟨?_, hmem⟩⟩
  rw [crawlerWait]
  exact (crawlerWaitAux_timeout cn env.crawlerState h 90 0 0 (by omega) (by omega)).2

/-- C6 witness: with a crawler stuck in RUNNING the wait times out and
the handler still performs the catalog lookup. -/
theorem crawler_timeout_is_soft_witness :
    (crawlerWait "csv-crawler" envC.crawlerState).2.1 = true ∧
    Call.getTables envC.glueDatabase ("csv_" ++ "*") ∈ (lambda_handler envC evA 0).2 :=
  (crawler_timeout_is_soft envC evA 0 "csv-crawler" "csv_" (by decide)).2
    (fun _ => by simp [isCrawlerTerminal, envC])

/-- C7: if the very first crawler poll observes a terminal state (READY
or STOPPING), the wait returns that state immediately, with no timeout
and zero sleeps. -/
theorem crawler_wait_immediate_on_first_terminal (name : String) (sample : Nat → String)
    (h : isCrawlerTerminal (sample 0) = true) :
    (crawlerWait name sample).1 = sample 0 ∧
    (crawlerWait name sample).2.1 = false ∧
    countCall isSleep (crawlerWait name sample).2.2 = 0 := by
  rw [crawlerWait_first_terminal name sample h]
  refine ⟨rfl, rfl, ?_⟩
  simp [countCall, isSleep, List.filter]

/-- C7 witness: a crawler that is READY on the first poll ends the wait
at once with no timeout and no sleep. -/
theorem crawler_wait_immediate_on_first_terminal_witness :
    (crawlerWait "c" (fun _ => "READY")).1 = "READY" ∧
    (crawlerWait "c" (fun _ => "READY")).2.1 = false ∧
    countCall isSleep (crawlerWait "c" (fun _ => "READY")).2.2 = 0 :=
  crawler_wait_immediate_on_first_terminal "c" (fun _ => "READY") (by simp [isCrawlerTerminal])

/-- C8: the query-completion wait has no time bound: at every fuel the
wait is still running if the observed state is never terminal (not in
SUCCEEDED, FAILED, CANCELLED); it only ever exits on a terminal state;
and every sleep it issues is the fixed 5 second interval. -/
theorem query_wait_unbounded (queryId : String) (sample : Nat → QueryStatusInfo)
    (fuel i : Nat) :
    ((∀ n, isQueryTerminal (sample n).state = false) →
      (queryWaitAux queryId sample i fuel).1 = none) ∧
    (∀ q, (queryWaitAux queryId sample i fuel).1 = some q → isQueryTerminal q.state = true) ∧
    (∀ s, Call.sleep s ∈ (queryWaitAux queryId sample i fuel).2 → s = 5) := by
  refine ⟨fun h => queryWaitAux_never_terminal queryId sample h fuel i,
    fun q hq => queryWaitAux_some_terminal queryId sample fuel i q hq,
    fun s hs => ?_⟩
  rcases queryWaitAux_trace queryId sample fuel i (Call.sleep s) hs with h | h <;> simp at h
  exact h

/-- C8 witness: a query stuck in RUNNING has not exited the wait after 7
polls. -/
theorem query_wait_unbounded_witness :
    (queryWaitAux "q" (fun _ => ⟨"RUNNING", none⟩) 0 7).1 = none :=
  (query_wait_unbounded "q" (fun _ => ⟨"RUNNING", none⟩) 7 0).1
    (fun _ => by simp [isQueryTerminal])

/-- C9: every invocation is strictly sequential with no fan-out: the
trace holds at most one crawler start and at most one query submission,
and after the query submission no crawler activity (start or poll)
occurs, so the query is only submitted once the refresh-task wait has
completed. -/
theorem strictly_sequential_no_fanout (env : Env) (event : Event) (fuel : Nat) :
    countCall isStartCrawler (lambda_handler env event fuel).2 ≤ 1 ∧
    countCall isStartQuery (lambda_handler env event fuel).2 ≤ 1 ∧
    ∀ pre q d l post,
      (lambda_handler env event fuel).2 = pre ++ Call.startQueryExecution q d l :: post →
      countCall isStartCrawler post = 0 ∧ countCall isGetCrawler post = 0 := by
  cases hc : classify env (extractJobName event) with
  | none =>
    have htr : (lambda_handler env event fuel).2 = [] := by
      rw [lambda_handler_unclassified env event fuel hc]
    rw [htr]
    refine ⟨by simp [countCall_nil], by simp [countCall_nil], ?_⟩
    intro pre q d l post heq
    exact absurd heq.symm (by simp)
  | some p =>
    obtain ⟨cn, pfx⟩ := p
    have hcw : countCall isStartCrawler (crawlerWait cn env.crawlerState).2.2 = 0 := by
      apply countCall_zero_of
      intro c hcm
      rcases crawlerWaitAux_trace cn env.crawlerState 90 0 0 (by omega) c hcm with h | h <;>
        simp [h, isStartCrawler]
    have hcwq : countCall isStartQuery (crawlerWait cn env.crawlerState).2.2 = 0 := by
      apply countCall_zero_of
      intro c hcm
      rcases crawlerWaitAux_trace cn env.crawlerState 90 0 0 (by omega) c hcm with h | h <;>
        simp [h, isStartQuery]
    cases ht : env.tableList with
    | nil =>
      have htr : (lambda_handler env event fuel).2 =
          Call.startCrawler cn :: (crawlerWait cn env.crawlerState).2.2 ++
            [Call.getTables env.glueDatabase (pfx ++ "*")] := by
        rw [lambda_handler_noTables env event fuel cn pfx hc ht]
      rw [htr]
      have hq0 : countCall isStartQuery
          (Call.startCrawler cn :: (crawlerWait cn env.crawlerState).2.2 ++
            [Call.getTables env.glueDatabase (pfx ++ "*")]) = 0 := by
        simp [countCall_append, countCall_cons, countCall_nil, hcwq, isStartQuery]
      refine ⟨?_, by rw [hq0]; omega, ?_⟩
      · simp [countCall_append, countCall_cons, countCall_nil, hcw, isStartCrawler]
      · intro pre q d l post heq
        exfalso
        rw [heq] at hq0
        simp [countCall_append, countCall_cons, isStartQuery] at hq0
    | cons t rest =>
      have hqwc : countCall isStartCrawler
          (queryWaitAux env.queryExecutionId env.queryStatus 0 fuel).2 = 0 := by
        apply countCall_zero_of
        intro c hcm
        rcases queryWaitAux_trace env.queryExecutionId env.queryStatus fuel 0 c hcm with h | h <;>
          simp [h, isStartCrawler]
      have hqwg : countCall isGetCrawler
          (queryWaitAux env.queryExecutionId env.queryStatus 0 fuel).2 = 0 := by
        apply countCall_zero_of
        intro c hcm
        rcases queryWaitAux_trace env.queryExecutionId env.queryStatus fuel 0 c hcm with h | h <;>
          simp [h, isGetCrawler]
      have hqwq : countCall isStartQuery
          (queryWaitAux env.queryExecutionId env.queryStatus 0 fuel).2 = 0 := by
        apply countCall_zero_of
        intro c hcm
        rcases queryWaitAux_trace env.queryExecutionId env.queryStatus fuel 0 c hcm with h | h <;>
          simp [h, isStartQuery]
      have htr : (lambda_handler env event fuel).2 =
          (Call.startCrawler cn :: (crawlerWait cn env.crawlerState).2.2 ++
            [Call.getTables env.glueDatabase (pfx ++ "*")]) ++
          Call.startQueryExecution ("SELECT * FROM " ++ t.name) env.glueDatabase
            ("s3://" ++ env.athenaOutputBucket ++ "/results/") ::
          (queryWaitAux env.queryExecutionId env.queryStatus 0 fuel).2 := by
        rw [lambda_handler_tables env event fuel cn pfx t rest hc ht]
        simp [List.append_assoc]
      rw [htr]
      have ha0 : countCall isStartQuery
          (Call.startCrawler cn :: (crawlerWait cn env.crawlerState).2.2 ++
            [Call.getTables env.glueDatabase (pfx ++ "*")]) = 0 := by
        simp [countCall_append, countCall_cons, countCall_nil, hcwq, isStartQuery]
      refine ⟨?_, ?_, ?_⟩
      · simp [countCall_append, countCall_cons, countCall_nil, hcw, hqwc, isStartCrawler]
      · simp [countCall_append, countCall_cons, countCall_nil, hcwq, hqwq, isStartQuery]
      · intro pre q d l post heq
        have hdec := firstAtOnly isStartQuery
          (Call.startCrawler cn :: (crawlerWait cn env.crawlerState).2.2 ++
            [Call.getTables env.glueDatabase (pfx ++ "*")])
          (Call.startQueryExecution ("SELECT * FROM " ++ t.name) env.glueDatabase
            ("s3://" ++ env.athenaOutputBucket ++ "/results/"))
          (queryWaitAux env.queryExecutionId env.queryStatus 0 fuel).2
          (by simp [isStartQuery]) ha0 hqwq pre (Call.startQueryExecution q d l) post
          heq (by simp [isStartQuery])
        rw [hdec.2.2]
        exact ⟨hqwc, hqwg⟩

/-- C9 witness: the concrete csv run starts at most one crawler and
submits at most one query. -/
theorem strictly_sequential_no_fanout_witness :
    countCall isStartCrawler (lambda_handler envA evA 1).2 ≤ 1 ∧
    countCall isStartQuery (lambda_handler envA evA 1).2 ≤ 1 :=
  ⟨(strictly_sequential_no_fanout envA evA 1).1,
   (strictly_sequential_no_fanout envA evA 1).2.1⟩

/-- C10: when the detail field or the jobName field is absent the handler
does not raise: the job name defaults to "unknown", which matches no
marker, so the handler returns failure without any external call — it is
total at its public interface for malformed events. -/
theorem malformed_event_is_total (env : Env) (event : Event) (fuel : Nat)
    (h : event.detail = none ∨ ∃ d, event.detail = some d ∧ d.jobName = none) :
    extractJobName event = "unknown" ∧
    lambda_handler env event fuel = (some (HResult.failure Reason.unclassifiedSignal), []) := by
  have hjn : extractJobName event = "unknown" := by
    rcases h with h | ⟨d, hd, hjn⟩
    · simp [extractJobName, h]
    · simp [extractJobName, hd, hjn]
  refine ⟨hjn, ?_⟩
  apply lambda_handler_unclassified
  rw [hjn]
  have h1 : pyIn "txt" "unknown" = false := by decide
  have h2 : pyIn "csv" "unknown" = false := by decide
  have h3 : pyIn "json" "unknown" = false := by decide
  simp [classify, h1, h2, h3]

/-- C10 witness: an event with no detail field yields job name "unknown"
and an UnclassifiedSignal failure with no external calls. -/
theorem malformed_event_is_total_witness :
    extractJobName ⟨none⟩ = "unknown" ∧
    lambda_handler envA ⟨none⟩ 0 = (some (HResult.failure Reason.unclassifiedSignal), []) :=
  malformed_event_is_total envA ⟨none⟩ 0 (Or.inl rfl)
